import Mathlib

/-!
Formal model of `runhttp.RunServer` (package `runhttp`, file `runhttp.go`).

The Go function composes three concurrent activities around one shared
cancellation context: a signal watcher (`signal.NotifyContext`), a serve
loop (`ListenAndServe` / `ListenAndServeTLS`), and a shutdown sequencer
goroutine that waits for the shared context, attempts a 3-second bounded
graceful `Shutdown`, and force-`Close`s the server via `defer`.  The two
goroutines are joined by `errgroup`, which records the first non-nil error
and cancels the shared context when it is recorded; `RunServer` suppresses
`http.ErrServerClosed` (via `errors.Is`) at the aggregation boundary.

The embedding below models Go errors as an inductive type with wrapping,
contexts as a syntax tree whose done-ness is evaluated against a `World`
of cancellation facts, the shutdown goroutine as a deterministic action
trace plus exit value, and a whole run as a `RunEnv` that resolves the
external outcomes (serve result, graceful-shutdown result, close result)
and the race for which non-nil error the task group records first.
-/

/-- Go errors, with `wrap` modelling `fmt.Errorf("...: %w", inner)`-style
wrapping so that `errors.Is` can walk the chain.  `errServerClosed` is
`http.ErrServerClosed`; `deadlineExceeded` is `context.DeadlineExceeded`. -/
inductive GoError where
  | errServerClosed
  | deadlineExceeded
  | errMsg (msg : String)
  | wrap (msg : String) (inner : GoError)
deriving DecidableEq

/-- `errors.Is(err, target)`: true when `target` appears anywhere in the
unwrap chain of `err`. -/
def errorsIs : GoError → GoError → Bool
  | GoError.wrap msg inner, t =>
      (GoError.wrap msg inner == t) || errorsIs inner t
  | e, t => e == t

/-- Context tree: `caller` is the caller-supplied base context; `notify`
is `signal.NotifyContext(parent, syscall.SIGTERM)`; `group` is the
context derived by `errgroup.WithContext`; `withTimeout` is
`context.WithTimeout(parent, seconds)`. -/
inductive Gctx where
  | caller
  | background
  | notify (parent : Gctx)
  | group (parent : Gctx)
  | withTimeout (parent : Gctx) (seconds : Nat)
deriving DecidableEq

/-- Cancellation facts of one run: whether the caller context is
cancelled, whether SIGTERM arrived, whether the errgroup has cancelled
its derived context, and whether the 3-second drain deadline expired. -/
structure World where
  callerCancelled : Bool
  sigTerm : Bool
  groupCancelled : Bool
  drainTimedOut : Bool

/-- `ctx.Done()` has fired: a context is done when its parent is done or
its own cancellation source has triggered. -/
def ctxDone (w : World) : Gctx → Bool
  | Gctx.caller => w.callerCancelled
  | Gctx.background => false
  | Gctx.notify p => ctxDone w p || w.sigTerm
  | Gctx.group p => ctxDone w p || w.groupCancelled
  | Gctx.withTimeout p _ => ctxDone w p || w.drainTimedOut

/-- The context `signal.NotifyContext(ctx, syscall.SIGTERM)` produces at
line 40 of `runhttp.go`, with `ctx` the caller's context. -/
def signalCtx : Gctx := Gctx.notify Gctx.caller

/-- The shared cancellation context produced by `errgroup.WithContext`
at line 44: every later use of `ctx` in `RunServer` refers to it. -/
def sharedCtx : Gctx := Gctx.group signalCtx

/-- `autocert.Manager.Prompt`: the code always installs
`autocert.AcceptTOS`. -/
inductive Prompt where
  | acceptTOS
deriving DecidableEq

/-- `autocert.HostWhitelist(hosts...)`: a policy admitting exactly the
listed hostnames. -/
def hostWhitelist (hosts : List String) : List String := hosts

/-- `autocert.Cache`: the code always uses `autocert.DirCache(dir)`. -/
inductive Cache where
  | dirCache (dir : String)
deriving DecidableEq

/-- The fields of `autocert.Manager` that `RunServer` sets. -/
structure Manager where
  prompt : Prompt
  hostPolicy : List String
  cache : Cache
deriving DecidableEq

/-- A TLS configuration; `m.TLSConfig()` yields one whose certificate
getter is backed by the manager `m`. -/
structure TLSConf where
  getCertManager : Manager
deriving DecidableEq

/-- `(m : autocert.Manager).TLSConfig()`. -/
def managerTLSConfig (m : Manager) : TLSConf := ⟨m⟩

/-- `runhttp.AutocertConfig`: a single domain and a cache directory. -/
structure AutocertConfig where
  domain : String
  cacheDir : String
deriving DecidableEq

/-- The serve operation selected at lines 26 and 36: plain
`srv.ListenAndServe` or `srv.ListenAndServeTLS(certFile, keyFile)`. -/
inductive ServeForm where
  | listenAndServe
  | listenAndServeTLS (certFile keyFile : String)
deriving DecidableEq

/-- The fields of `http.Server` that `RunServer` touches.  The base
context factory maps a listener (numbered) to the context handed to
connections accepted on it. -/
structure Server where
  tlsConfig : Option TLSConf
  baseContext : Option (Nat → Gctx)

/-- Result of the single-threaded setup phase of `RunServer`
(lines 26-47): the mutated server, the selected serve form, and the
shared context. -/
structure SetupState where
  srv : Server
  listenAndServe : ServeForm
  sharedCtx : Gctx

/-- Setup phase of `RunServer` (lines 26-47): select the serve form,
optionally configure autocert TLS, derive the signal and group contexts,
and install the base-context factory. -/
def runServerSetup (srv : Server) (crtCfg : Option AutocertConfig) : SetupState :=
  let listenAndServe := ServeForm.listenAndServe
  let (srv, listenAndServe) :=
    match crtCfg with
    | some cfg =>
        let m : Manager :=
          { prompt := Prompt.acceptTOS
            hostPolicy := hostWhitelist [cfg.domain]
            cache := Cache.dirCache cfg.cacheDir }
        ({ srv with tlsConfig := some (managerTLSConfig m) },
          ServeForm.listenAndServeTLS "" "")
    | none => (srv, listenAndServe)
  let ctx := Gctx.notify Gctx.caller
  let ctx := Gctx.group ctx
  let srv := { srv with baseContext := some (fun _ => ctx) }
  { srv := srv, listenAndServe := listenAndServe, sharedCtx := ctx }

/-- The context a connection accepted on listener `l` receives from the
installed `BaseContext` factory. -/
def connCtx (s : SetupState) (l : Nat) : Option Gctx :=
  s.srv.baseContext.map (fun f => f l)

/-- Actions of the shutdown sequencer goroutine (lines 50-60):
block on `ctx.Done()`, create the 3-second timeout context from
`context.Background()`, call `srv.Shutdown`, run the deferred timeout
`cancel`, run the deferred `srv.Close`. -/
inductive SAction where
  | awaitDone (c : Gctx)
  | createTimeoutCtx (parent : Gctx) (seconds : Nat)
  | shutdownCall (c : Gctx)
  | cancelTimeoutCtx
  | closeCall
deriving DecidableEq

/-- How one run resolves the external `srv.Shutdown(ctx)` call: it
returns an optional error (nil when draining finished in time,
`context.DeadlineExceeded` on timeout), or it panics. -/
inductive ShutdownBehavior where
  | returns (res : Option GoError)
  | panics
deriving DecidableEq

/-- How one invocation of the shutdown goroutine ends. -/
inductive ThreadExit where
  | normal (res : Option GoError)
  | panicked
deriving DecidableEq

/-- The shutdown sequencer goroutine (lines 50-60), as the trace of the
actions it performs and its exit.  Go's `defer` semantics run the
deferred timeout `cancel` and then `srv.Close` on every exit, including
a panicking `srv.Shutdown`; the result of `srv.Close` (`closeErr`) is
discarded by `defer` and never enters the exit value. -/
def shutdownThread (sc : Gctx) (beh : ShutdownBehavior)
    (closeErr : Option GoError) : List SAction × ThreadExit :=
  let _ := closeErr
  let trace : List SAction :=
    [SAction.awaitDone sc,
     SAction.createTimeoutCtx Gctx.background 3,
     SAction.shutdownCall (Gctx.withTimeout Gctx.background 3),
     SAction.cancelTimeoutCtx,
     SAction.closeCall]
  match beh with
  | ShutdownBehavior.returns r => (trace, ThreadExit.normal r)
  | ShutdownBehavior.panics => (trace, ThreadExit.panicked)

/-- One run of `RunServer`, with the external outcomes resolved:
`serveErr` is the (always non-nil) result of the selected
listen-and-serve call; `shutdown` resolves `srv.Shutdown`; `closeErr`
resolves `srv.Close`; `serveFirst` resolves the race for which non-nil
goroutine result the errgroup's `sync.Once` records first (relevant only
when both goroutines return non-nil errors). -/
structure RunEnv where
  serveErr : GoError
  shutdown : ShutdownBehavior
  closeErr : Option GoError
  serveFirst : Bool

/-- `errgroup` cancels its derived context the moment a goroutine
returns a non-nil error. -/
def errgroupCancelsOn (res : Option GoError) : Bool := res.isSome

/-- The error `threads.Wait()` returns (line 66): the first non-nil
goroutine error recorded by the errgroup.  The serve goroutine always
returns a non-nil error; when the shutdown goroutine also returns one,
`serveFirst` decides which was recorded. -/
def groupFirstErr (env : RunEnv) : Option GoError :=
  match env.shutdown with
  | ShutdownBehavior.returns (some e) =>
      if env.serveFirst then some env.serveErr else some e
  | _ => some env.serveErr

/-- The value `RunServer` produces: an error-or-nil return, or a process
crash when the shutdown goroutine panics (an uncaught panic in a
goroutine kills the program; `threads.Wait()` never returns). -/
inductive RunResult where
  | returns (res : Option GoError)
  | crashed
deriving DecidableEq

/-- `RunServer` (lines 25-70): run both goroutines, wait, and suppress
any aggregated error that `errors.Is`-matches `http.ErrServerClosed`. -/
def runServer (env : RunEnv) : RunResult :=
  match (shutdownThread sharedCtx env.shutdown env.closeErr).2 with
  | ThreadExit.panicked => RunResult.crashed
  | ThreadExit.normal _ =>
      match groupFirstErr env with
      | some e =>
          if errorsIs e GoError.errServerClosed then RunResult.returns none
          else RunResult.returns (some e)
      | none => RunResult.returns none

/-- Orchestration events of one returning run of `RunServer`, in program
order: subscribe to SIGTERM (line 40), create the errgroup and its
context (line 44), install the base-context factory (line 47), launch
the two goroutines (lines 50, 63), observe `threads.Wait()` (line 66),
and run the deferred signal release (line 41) before returning.  A run
whose shutdown goroutine panics crashes after the launches and never
reaches `Wait` or the deferred release. -/
inductive RunEvent where
  | subscribeSignal
  | createGroup
  | installBaseContext (c : Gctx)
  | launchShutdown
  | launchServe
  | waitReturned (res : Option GoError)
  | unsubscribeSignal
  | returned (res : RunResult)
deriving DecidableEq

/-- The orchestration trace of one run. -/
def runServerTrace (env : RunEnv) : List RunEvent :=
  [RunEvent.subscribeSignal,
   RunEvent.createGroup,
   RunEvent.installBaseContext sharedCtx,
   RunEvent.launchShutdown,
   RunEvent.launchServe] ++
  match env.shutdown with
  | ShutdownBehavior.panics => []
  | ShutdownBehavior.returns _ =>
      [RunEvent.waitReturned (groupFirstErr env),
       RunEvent.unsubscribeSignal,
       RunEvent.returned (runServer env)]

/-- Exit of the shutdown goroutine when `srv.Shutdown` returns `r`. -/
lemma shutdownThread_exit_returns (sc : Gctx) (r : Option GoError)
    (ce : Option GoError) :
    (shutdownThread sc (ShutdownBehavior.returns r) ce).2 = ThreadExit.normal r :=
  rfl

/-- Claim C1: whenever the error aggregated by the task group is (or
wraps) `http.ErrServerClosed`, `RunServer` suppresses it and returns
nil; the closed sentinel never surfaces as a reported error. -/
theorem runServer_suppresses_server_closed (env : RunEnv) (e : GoError)
    (r : Option GoError) (hret : env.shutdown = ShutdownBehavior.returns r)
    (hagg : groupFirstErr env = some e)
    (hclosed : errorsIs e GoError.errServerClosed = true) :
    runServer env = RunResult.returns none := by
  unfold runServer
  rw [hret, shutdownThread_exit_returns]
  dsimp only
  rw [hagg]
  dsimp only
  simp [hclosed]

/-- Claim C1 witness: a run where the server closes itself cleanly (the
serve loop returns `http.ErrServerClosed`, graceful shutdown returns
nil) yields a nil outcome. -/
theorem runServer_suppresses_server_closed_witness :
    errorsIs GoError.errServerClosed GoError.errServerClosed = true ∧
      runServer ⟨GoError.errServerClosed, ShutdownBehavior.returns none, none, true⟩ =
        RunResult.returns none :=
  ⟨by decide,
    runServer_suppresses_server_closed
      ⟨GoError.errServerClosed, ShutdownBehavior.returns none, none, true⟩
      GoError.errServerClosed none rfl rfl (by decide)⟩

/-- Claim C10: the suppression at the aggregation boundary checks the
whole error chain with `errors.Is` and does not distinguish which
activity produced the error: whatever single error the task group
reports, if it wraps `http.ErrServerClosed` anywhere in its chain,
`RunServer` returns nil. -/
theorem runServer_suppression_walks_error_chain (env : RunEnv) (msg : String)
    (inner : GoError) (r : Option GoError)
    (hret : env.shutdown = ShutdownBehavior.returns r)
    (hagg : groupFirstErr env = some (GoError.wrap msg inner))
    (hchain : errorsIs inner GoError.errServerClosed = true) :
    runServer env = RunResult.returns none := by
  unfold runServer
  rw [hret, shutdownThread_exit_returns]
  dsimp only
  rw [hagg]
  dsimp only
  simp [errorsIs, hchain]

/-- Claim C10 witness: the reported error originates from the shutdown
activity (recorded before the serve result) and carries the closed
sentinel two wrap levels deep in its chain, yet the run still returns
nil. -/
theorem runServer_suppression_walks_error_chain_witness :
    groupFirstErr
        ⟨GoError.errMsg "serve", ShutdownBehavior.returns
          (some (GoError.wrap "shutdown"
            (GoError.wrap "shutting down" GoError.errServerClosed))), none, false⟩ =
      some (GoError.wrap "shutdown"
        (GoError.wrap "shutting down" GoError.errServerClosed)) ∧
      errorsIs (GoError.wrap "shutting down" GoError.errServerClosed)
          GoError.errServerClosed = true ∧
      runServer
        ⟨GoError.errMsg "serve", ShutdownBehavior.returns
          (some (GoError.wrap "shutdown"
            (GoError.wrap "shutting down" GoError.errServerClosed))), none, false⟩ =
        RunResult.returns none :=
  ⟨rfl, rfl,
    runServer_suppression_walks_error_chain
      ⟨GoError.errMsg "serve", ShutdownBehavior.returns
        (some (GoError.wrap "shutdown"
          (GoError.wrap "shutting down" GoError.errServerClosed))), none, false⟩
      "shutdown" (GoError.wrap "shutting down" GoError.errServerClosed)
      (some (GoError.wrap "shutdown"
        (GoError.wrap "shutting down" GoError.errServerClosed))) rfl rfl rfl⟩

/-- Claim C2: when the serve operation fails with a genuine (non-closed)
error and that failure is the one the errgroup records (it is the
cancellation trigger), `RunServer` returns that failure; the errgroup
cancels the shared context on any non-nil result, which makes the shared
context done so the sibling shutdown goroutine unblocks. -/
theorem runServer_serve_failure_propagates (env : RunEnv) (r : Option GoError)
    (hret : env.shutdown = ShutdownBehavior.returns r)
    (hfirst : env.serveFirst = true)
    (hgenuine : errorsIs env.serveErr GoError.errServerClosed = false) :
    runServer env = RunResult.returns (some env.serveErr) ∧
      errgroupCancelsOn (some env.serveErr) = true ∧
      ctxDone ⟨false, false, true, false⟩ sharedCtx = true := by
  refine ⟨?_, rfl, by decide⟩
  unfold runServer
  rw [hret, shutdownThread_exit_returns]
  dsimp only
  have hagg : groupFirstErr env = some env.serveErr := by
    unfold groupFirstErr
    rw [hret]
    cases r with
    | none => rfl
    | some e => dsimp only; rw [hfirst]; simp
  rw [hagg]
  dsimp only
  simp [hgenuine]

/-- Claim C2 witness: an immediate listen failure (serve returns a
genuine error before anything else happens) is returned by the run. -/
theorem runServer_serve_failure_propagates_witness :
    errorsIs (GoError.errMsg "address already in use")
        GoError.errServerClosed = false ∧
      runServer ⟨GoError.errMsg "address already in use",
          ShutdownBehavior.returns none, none, true⟩ =
        RunResult.returns (some (GoError.errMsg "address already in use")) :=
  ⟨rfl,
    (runServer_serve_failure_propagates
      ⟨GoError.errMsg "address already in use",
        ShutdownBehavior.returns none, none, true⟩
      none rfl rfl rfl).1⟩

/-- The typical signal-triggered run in which graceful shutdown times
out: `srv.Shutdown` closes the listeners immediately, so the serve loop
returns `http.ErrServerClosed` and the errgroup records it well before
the 3-second deadline expires and the shutdown goroutine returns
`context.DeadlineExceeded`. -/
def drainTimeoutRun : RunEnv :=
  { serveErr := GoError.errServerClosed
    shutdown := ShutdownBehavior.returns (some GoError.deadlineExceeded)
    closeErr := none
    serveFirst := true }

/-- Claim C5 counterexample: in `drainTimeoutRun` the graceful shutdown
attempt times out with `context.DeadlineExceeded`, no genuine failure
preempted it (the only other error is the closed sentinel, which the
spec itself does not treat as a failure), yet `RunServer` returns nil
rather than the deadline error: the errgroup's first-error-wins rule
keeps `http.ErrServerClosed` and discards the shutdown error. -/
theorem runServer_drops_drain_timeout_error :
    runServer drainTimeoutRun = RunResult.returns none ∧
      runServer drainTimeoutRun ≠
        RunResult.returns (some GoError.deadlineExceeded) ∧
      errorsIs GoError.deadlineExceeded GoError.errServerClosed = false := by
  decide

/-- Claim C5 amended: the graceful-shutdown error is the final outcome
exactly when it is the first (non-nil) result the task group records,
i.e. when the serve loop's own non-nil result has not been recorded
earlier. -/
theorem runServer_shutdown_error_propagates_when_recorded_first (env : RunEnv)
    (e : GoError) (hret : env.shutdown = ShutdownBehavior.returns (some e))
    (hsecond : env.serveFirst = false)
    (hgenuine : errorsIs e GoError.errServerClosed = false) :
    runServer env = RunResult.returns (some e) := by
  unfold runServer
  rw [hret, shutdownThread_exit_returns]
  dsimp only
  have hagg : groupFirstErr env = some e := by
    unfold groupFirstErr
    rw [hret]
    dsimp only
    rw [hsecond]
    simp
  rw [hagg]
  dsimp only
  simp [hgenuine]

/-- Claim C5 amended witness: a schedule in which the shutdown
goroutine's deadline error is recorded before the serve result does
propagate it to the caller. -/
theorem runServer_shutdown_error_propagates_when_recorded_first_witness :
    errorsIs GoError.deadlineExceeded GoError.errServerClosed = false ∧
      runServer ⟨GoError.errServerClosed,
          ShutdownBehavior.returns (some GoError.deadlineExceeded), none, false⟩ =
        RunResult.returns (some GoError.deadlineExceeded) :=
  ⟨by decide,
    runServer_shutdown_error_propagates_when_recorded_first
      ⟨GoError.errServerClosed,
        ShutdownBehavior.returns (some GoError.deadlineExceeded), none, false⟩
      GoError.deadlineExceeded rfl rfl (by decide)⟩

/-- Claim C3: on every exit of the shutdown goroutine — normal return
(clean, errored, or timed out graceful shutdown) or panic — the deferred
`srv.Close` runs exactly once, and its result never influences the
goroutine's exit value nor the run's outcome. -/
theorem srv_close_exactly_once (sc : Gctx) (beh : ShutdownBehavior)
    (ce : Option GoError) :
    (shutdownThread sc beh ce).1.count SAction.closeCall = 1 ∧
      (∀ ce' : Option GoError,
        (shutdownThread sc beh ce).2 = (shutdownThread sc beh ce').2) ∧
      (∀ env : RunEnv, ∀ ce' : Option GoError,
        runServer { env with closeErr := ce' } = runServer env) := by
  refine ⟨?_, fun ce' => ?_, fun env ce' => rfl⟩
  · cases beh <;> rfl
  · cases beh <;> rfl

/-- Claim C4: the shutdown sequencer first blocks on the shared
cancellation context, then builds a 3-second timeout context from a
fresh `context.Background()` — whose done-ness depends only on the
deadline, not on any of the cancelled run contexts — calls
`srv.Shutdown` with exactly that context, and the error produced by
that call is the goroutine's result. -/
theorem shutdown_sequencer_fresh_deadline (beh : ShutdownBehavior)
    (ce : Option GoError) :
    (shutdownThread sharedCtx beh ce).1 =
      [SAction.awaitDone sharedCtx,
       SAction.createTimeoutCtx Gctx.background 3,
       SAction.shutdownCall (Gctx.withTimeout Gctx.background 3),
       SAction.cancelTimeoutCtx,
       SAction.closeCall] ∧
      (∀ r : Option GoError,
        (shutdownThread sharedCtx (ShutdownBehavior.returns r) ce).2 =
          ThreadExit.normal r) ∧
      (∀ w : World,
        ctxDone w (Gctx.withTimeout Gctx.background 3) = w.drainTimedOut) := by
  refine ⟨?_, fun r => rfl, fun w => ?_⟩
  · cases beh <;> rfl
  · simp [ctxDone]

/-- Claim C6: with an `AutocertConfig`, setup builds a manager that
auto-accepts the TOS, whitelists exactly the configured domain, and
caches in the configured directory; attaches its TLS configuration to
the server; and selects `ListenAndServeTLS("", "")`.  Without a config,
the plain `ListenAndServe` is selected and the server's TLS
configuration is left untouched. -/
theorem runServer_tls_bootstrap (srv : Server) :
    (∀ cfg : AutocertConfig,
      (runServerSetup srv (some cfg)).listenAndServe =
          ServeForm.listenAndServeTLS "" "" ∧
        (runServerSetup srv (some cfg)).srv.tlsConfig =
          some (managerTLSConfig
            { prompt := Prompt.acceptTOS
              hostPolicy := hostWhitelist [cfg.domain]
              cache := Cache.dirCache cfg.cacheDir })) ∧
      (runServerSetup srv none).listenAndServe = ServeForm.listenAndServe ∧
      (runServerSetup srv none).srv.tlsConfig = srv.tlsConfig :=
  ⟨fun _ => ⟨rfl, rfl⟩, rfl, rfl⟩

/-- Claim C9: the host policy handed to the certificate manager is the
singleton whitelist of the one `Domain` field of `AutocertConfig`; the
interface admits no multi-hostname whitelist. -/
theorem autocert_host_policy_single_domain (srv : Server) (cfg : AutocertConfig) :
    ((runServerSetup srv (some cfg)).srv.tlsConfig.map
        (fun tc => tc.getCertManager.hostPolicy)) = some [cfg.domain] ∧
      (hostWhitelist [cfg.domain]).length = 1 :=
  ⟨rfl, rfl⟩

/-- Claim C7: the shared context is the errgroup derivation of
`signal.NotifyContext(ctx, SIGTERM)` over the caller's context; the
signal context is done exactly when the caller's context is cancelled
or SIGTERM arrived (so a pre-cancelled caller context is an immediate
shutdown trigger); and the deferred signal release runs on every
returning path of `RunServer`. -/
theorem signal_context_wiring :
    (∀ srv : Server, ∀ crtCfg : Option AutocertConfig,
      (runServerSetup srv crtCfg).sharedCtx =
        Gctx.group (Gctx.notify Gctx.caller)) ∧
      (∀ w : World, ctxDone w signalCtx = (w.callerCancelled || w.sigTerm)) ∧
      (∀ w : World, w.callerCancelled = true → ctxDone w signalCtx = true) ∧
      (∀ se : GoError, ∀ r ce : Option GoError, ∀ sf : Bool,
        RunEvent.unsubscribeSignal ∈
          runServerTrace ⟨se, ShutdownBehavior.returns r, ce, sf⟩) := by
  refine ⟨fun srv crtCfg => ?_, fun w => rfl, fun w h => ?_, fun se r ce sf => ?_⟩
  · cases crtCfg <;> rfl
  · simp [ctxDone, signalCtx, h]
  · simp [runServerTrace]

/-- Claim C7 witness: a caller context that is already cancelled makes
the derived signal context done with no SIGTERM. -/
theorem signal_context_wiring_witness :
    ctxDone ⟨true, false, false, false⟩ signalCtx = true :=
  signal_context_wiring.2.2.1 ⟨true, false, false, false⟩ rfl

/-- Claim C8: setup installs a base-context factory that returns the
shared cancellation context for every listener; that installation sits
before both goroutine launches in the orchestration trace; and the
context a connection receives is done exactly when the shared context
is, for every world of cancellation facts. -/
theorem baseContext_shared_before_launch (srv : Server)
    (crtCfg : Option AutocertConfig) :
    (∀ l : Nat, connCtx (runServerSetup srv crtCfg) l =
        some (runServerSetup srv crtCfg).sharedCtx) ∧
      (∀ env : RunEnv, ∃ rest : List RunEvent,
        runServerTrace env =
          [RunEvent.subscribeSignal, RunEvent.createGroup,
           RunEvent.installBaseContext sharedCtx,
           RunEvent.launchShutdown, RunEvent.launchServe] ++ rest) ∧
      (∀ l : Nat, ∀ w : World,
        (connCtx (runServerSetup srv crtCfg) l).map (ctxDone w) =
          some (ctxDone w sharedCtx)) := by
  refine ⟨fun l => ?_, fun env => ⟨_, rfl⟩, fun l w => ?_⟩
  · cases crtCfg <;> rfl
  · cases crtCfg <;> rfl
